import Mathlib

/-!
Verification of the `itemdb.py` ItemDB decoder (gt-itemsdat-parser).

Shallow embedding of `src/itemdb.py`:

* A byte source is a `List Nat` (each element one byte). Python's
  `buffer.read(n)` on a `BytesIO`/file object returns *up to* `n` bytes
  (fewer at end of stream, with no error), and `read(n)` for negative `n`
  reads everything to the end of the stream; `readBytes` mirrors that.
* `_parse_int`, `_parse_str`, `_xor_str` and `parse` are direct
  translations of the Python functions with the same names.
* A Python `str` is modelled as its list of code points (`List Nat`);
  `bytes.decode("utf-8")` is modelled by the strict decoder `utf8Decode`
  (rejecting stray/missing continuation bytes, overlong forms, surrogates
  and code points above 0x10FFFF, exactly as CPython's strict codec does).
* Python exceptions raised by `parse` become an `Except ParseError` result:
  `UnicodeDecodeError` from `.decode("utf-8")`, `ZeroDivisionError` from
  `% len(key)` with an empty key, the `ValueError` raised by `chr` when a
  XOR result exceeds 0x10FFFF, `AttributeError` from `item.id` when the
  template has no `id` field, and the two `ValueError`s raised explicitly
  (unknown field type, offset mismatch) keep their message payloads.
* A template (`template.__annotations__` plus the `_Field` defaults) is an
  ordered association list of (field name, annotation, field descriptor);
  the decoded item is an ordered association list of
  (field name, optional value).
-/

/-- Little-endian interpretation of a byte list, as in
`int.from_bytes(bs, "little")` (the empty list gives 0). -/
def fromBytesLE : List Nat → Nat
  | [] => 0
  | b :: bs => b + 256 * fromBytesLE bs

/-- Python `buffer.read(size)`: returns up to `size` bytes together with the
remaining stream; a negative `size` reads everything (CPython `read(-1)`). -/
def readBytes (buffer : List Nat) (size : Int) : List Nat × List Nat :=
  if size < 0 then (buffer, [])
  else (buffer.take size.toNat, buffer.drop size.toNat)

/-- `_parse_int(buffer, size)`: `int.from_bytes(buffer.read(size), "little")`.
Returns the decoded integer and the rest of the stream. A short read does not
fail: the available bytes (possibly none) are interpreted little-endian. -/
def _parse_int (buffer : List Nat) (size : Int) : Nat × List Nat :=
  let r := readBytes buffer size
  (fromBytesLE r.1, r.2)

/-- One step of strict UTF-8 decoding with fuel (the fuel is an upper bound on
the number of decoded code points; each step consumes at least one byte, so
the list length is enough fuel). Mirrors CPython's strict `utf-8` codec:
continuation bytes are `0x80..0xBF`; overlong encodings, surrogates
(`0xD800..0xDFFF`) and code points above `0x10FFFF` are rejected. -/
def utf8DecodeAux : Nat → List Nat → Option (List Nat)
  | _, [] => some []
  | 0, _ :: _ => none
  | fuel + 1, b0 :: bs =>
    if b0 < 0x80 then
      (utf8DecodeAux fuel bs).map (fun r => b0 :: r)
    else if b0 < 0xC0 then none
    else if b0 < 0xE0 then
      match bs with
      | b1 :: rest =>
        if 0x80 ≤ b1 ∧ b1 < 0xC0 then
          let cp := (b0 - 0xC0) * 64 + (b1 - 0x80)
          if cp < 0x80 then none
          else (utf8DecodeAux fuel rest).map (fun r => cp :: r)
        else none
      | [] => none
    else if b0 < 0xF0 then
      match bs with
      | b1 :: b2 :: rest =>
        if (0x80 ≤ b1 ∧ b1 < 0xC0) ∧ (0x80 ≤ b2 ∧ b2 < 0xC0) then
          let cp := (b0 - 0xE0) * 4096 + (b1 - 0x80) * 64 + (b2 - 0x80)
          if cp < 0x800 then none
          else if 0xD800 ≤ cp ∧ cp < 0xE000 then none
          else (utf8DecodeAux fuel rest).map (fun r => cp :: r)
        else none
      | _ => none
    else if b0 < 0xF8 then
      match bs with
      | b1 :: b2 :: b3 :: rest =>
        if (0x80 ≤ b1 ∧ b1 < 0xC0) ∧ (0x80 ≤ b2 ∧ b2 < 0xC0) ∧
            (0x80 ≤ b3 ∧ b3 < 0xC0) then
          let cp := (b0 - 0xF0) * 262144 + (b1 - 0x80) * 4096 +
            (b2 - 0x80) * 64 + (b3 - 0x80)
          if cp < 0x10000 then none
          else if 0x10FFFF < cp then none
          else (utf8DecodeAux fuel rest).map (fun r => cp :: r)
        else none
      | _ => none
    else none

/-- Strict UTF-8 decoding of a byte list into code points, `none` on invalid
input (Python raises `UnicodeDecodeError` there). -/
def utf8Decode (bs : List Nat) : Option (List Nat) :=
  utf8DecodeAux bs.length bs

/-- `_parse_str(buffer)`: reads a 2-byte little-endian length, then that many
bytes, and decodes them as UTF-8. `none` models the `UnicodeDecodeError`
raised by `.decode("utf-8")` on invalid bytes. Short reads do not fail. -/
def _parse_str (buffer : List Nat) : Option (List Nat × List Nat) :=
  let r := _parse_int buffer 2
  let s := readBytes r.2 (Int.ofNat r.1)
  match utf8Decode s.1 with
  | some cps => some (cps, s.2)
  | none => none

/-- Annotation of a template field: Python-level `int`, `str`, `None`, or any
other type (carried with its `__name__` for the error message). -/
inductive Ann
  | int
  | str
  | none
  | other (typeName : String)
deriving DecidableEq, Repr

/-- `_Field`: size in bytes (-1 meaning dynamic), minimum ItemDB version, and
the XOR key (as code points) for XORed strings. -/
structure _Field where
  size : Int := -1
  version : Nat := 1
  xor_key : Option (List Nat) := Option.none
deriving DecidableEq, Repr

/-- A decoded field value: a Python `int` or a Python `str` (code points). -/
inductive Value
  | int (n : Nat)
  | str (s : List Nat)
deriving DecidableEq, Repr

/-- Exceptions `parse` can raise, with the data interpolated into the Python
message (or carried by the exception type). `valueError` is the
`ValueError` raised by `chr` inside `_xor_str` when a XOR result is not in
`range(0x110000)`. -/
inductive ParseError
  | unicodeDecodeError
  | zeroDivisionError
  | valueError
  | attributeError
  | unknownFieldType (fieldName typeName : String)
  | offsetMismatch (index : Nat) (idValue : Option Value) (version : Nat)
deriving DecidableEq, Repr

/-- The loop body of `_xor_str`, carrying the current character position `p`:
character `p` of the string is XORed with `key[(p + offset) % len(key)]` and
passed to `chr`, which raises `ValueError` (the `none` case) when the result
exceeds 0x10FFFF; the loop aborts at the first such failure. -/
def xorAux (key : List Nat) (offset : Nat) : Nat → List Nat → Option (List Nat)
  | _, [] => some []
  | p, c :: cs =>
    let x := c ^^^ key.getD ((p + offset) % key.length) 0
    if 0x10FFFF < x then none
    else (xorAux key offset (p + 1) cs).map (fun r => x :: r)

/-- `_xor_str(str, key, offset)`. With an empty key and a nonempty string the
Python loop body evaluates `% len(key)` with `len(key) = 0` and raises
`ZeroDivisionError` at the first character, before any XOR (an empty string
skips the loop entirely and returns `""` even with an empty key); otherwise
the loop runs and `chr` raises `ValueError` on any out-of-range XOR result. -/
def _xor_str (s key : List Nat) (offset : Nat) : Except ParseError (List Nat) :=
  if key.length = 0 ∧ s.length ≠ 0 then .error ParseError.zeroDivisionError
  else
    match xorAux key offset 0 s with
    | some r => .ok r
    | Option.none => .error ParseError.valueError

/-- A template: `template.__annotations__` in declaration order, each name
paired with its annotation and its `_Field` default value. -/
abbrev Template := List (String × Ann × _Field)

/-- A decoded item: each template field name bound to its decoded value
(`Option.none` models Python `None`: gated-out or ignored fields). -/
abbrev Record := List (String × Option Value)

/-- `getattr(item, name)` on the decoded item: `Option.none` when the item
has no attribute of that name (Python raises `AttributeError`). -/
def getAttr (record : Record) (name : String) : Option (Option Value) :=
  match record with
  | [] => Option.none
  | (k, v) :: rest => if k = name then some v else getAttr rest name

/-- The body of the inner loop of `parse` for one field `(k, t, f)` of the
template: version gating first, then dispatch on the annotation `t`. Returns
the value assigned by `setattr` and the remaining stream. -/
def parseField (version i : Nat) (buffer : List Nat) :
    String × Ann × _Field → Except ParseError (Option Value × List Nat)
  | (k, t, f) =>
    if f.version > version then .ok (Option.none, buffer)
    else match t with
      | Ann.int =>
        let r := _parse_int buffer f.size
        .ok (some (Value.int r.1), r.2)
      | Ann.str =>
        match _parse_str buffer with
        | Option.none => .error ParseError.unicodeDecodeError
        | some (s, rest) =>
          match f.xor_key with
          | some key =>
            if version ≥ 3 then
              match _xor_str s key i with
              | .ok s2 => .ok (some (Value.str s2), rest)
              | .error e => .error e
            else .ok (some (Value.str s), rest)
          | Option.none => .ok (some (Value.str s), rest)
      | Ann.none =>
        if f.size > 0 then .ok (Option.none, (_parse_int buffer f.size).2)
        else
          match _parse_str buffer with
          | Option.none => .error ParseError.unicodeDecodeError
          | some (_, rest) => .ok (Option.none, rest)
      | Ann.other typeName => .error (ParseError.unknownFieldType k typeName)

/-- The inner loop of `parse`: decode every template field in order,
threading the stream, collecting the `setattr` bindings in order. -/
def parseFields (tpl : Template) (version i : Nat) (buffer : List Nat) :
    Except ParseError (Record × List Nat) :=
  match tpl with
  | [] => .ok ([], buffer)
  | fld :: rest =>
    match parseField version i buffer fld with
    | .error e => .error e
    | .ok (v, buf2) =>
      match parseFields rest version i buf2 with
      | .error e => .error e
      | .ok (record, buf3) => .ok ((fld.1, v) :: record, buf3)

/-- One iteration of the outer loop of `parse`: decode the fields of the item
at position `i`, then check `i != item.id` and raise the offset-mismatch
`ValueError` (carrying `i`, `item.id` and the version) when it fails. -/
def parseItem (tpl : Template) (version i : Nat) (buffer : List Nat) :
    Except ParseError (Record × List Nat) :=
  match parseFields tpl version i buffer with
  | .error e => .error e
  | .ok (record, buf2) =>
    match getAttr record "id" with
    | Option.none => .error ParseError.attributeError
    | some v =>
      if v = some (Value.int i) then .ok (record, buf2)
      else .error (ParseError.offsetMismatch i v version)

/-- The outer loop of `parse`: `n` remaining iterations, next index `i`. -/
def parseItems (tpl : Template) (version : Nat) :
    Nat → Nat → List Nat → Except ParseError (List Record × List Nat)
  | 0, _, buffer => .ok ([], buffer)
  | n + 1, i, buffer =>
    match parseItem tpl version i buffer with
    | .error e => .error e
    | .ok (item, buf2) =>
      match parseItems tpl version n (i + 1) buf2 with
      | .error e => .error e
      | .ok (items, buf3) => .ok (item :: items, buf3)

/-- `parse(buffer, template)`: reads the 2-byte version and the 4-byte item
count, decodes `item_count` items, and returns
`(version, item_count, items)`. In the Python source `template` defaults to
`Item`. -/
def parse (buffer : List Nat) (template : Template) :
    Except ParseError (Nat × Nat × List Record) :=
  let r1 := _parse_int buffer 2
  let r2 := _parse_int r1.2 4
  match parseItems template r1.1 r2.1 0 r2.2 with
  | .error e => .error e
  | .ok (items, _) => .ok (r1.1, r2.1, items)

/-- Code points of an ASCII string literal (used for XOR keys). -/
def strCodes (s : String) : List Nat := s.data.map Char.toNat

/-- The default `Item` template of `itemdb.py`, in declaration order, with
each field's annotation and `_Field(size, version, xor_key)` values
(defaults: `size = -1`, `version = 1`, `xor_key = None`). -/
def Item : Template := [
  ("id", Ann.int, ⟨4, 1, Option.none⟩),
  ("properties", Ann.int, ⟨2, 1, Option.none⟩),
  ("type", Ann.int, ⟨1, 1, Option.none⟩),
  ("material", Ann.int, ⟨1, 1, Option.none⟩),
  ("name", Ann.str, ⟨-1, 1, some (strCodes "PBG892FXX982ABC*")⟩),
  ("file_name", Ann.str, ⟨-1, 1, Option.none⟩),
  ("file_hash", Ann.int, ⟨4, 1, Option.none⟩),
  ("visual_type", Ann.int, ⟨1, 1, Option.none⟩),
  ("cook_time", Ann.int, ⟨4, 1, Option.none⟩),
  ("tex_x", Ann.int, ⟨1, 1, Option.none⟩),
  ("tex_y", Ann.int, ⟨1, 1, Option.none⟩),
  ("storage_type", Ann.int, ⟨1, 1, Option.none⟩),
  ("layer", Ann.int, ⟨1, 1, Option.none⟩),
  ("collision_type", Ann.int, ⟨1, 1, Option.none⟩),
  ("hardness", Ann.int, ⟨1, 1, Option.none⟩),
  ("regen_time", Ann.int, ⟨4, 1, Option.none⟩),
  ("clothing_type", Ann.int, ⟨1, 1, Option.none⟩),
  ("rarity", Ann.int, ⟨2, 1, Option.none⟩),
  ("max_hold", Ann.int, ⟨1, 1, Option.none⟩),
  ("alt_file_path", Ann.str, ⟨-1, 1, Option.none⟩),
  ("alt_file_hash", Ann.int, ⟨4, 1, Option.none⟩),
  ("anim_ms", Ann.int, ⟨4, 1, Option.none⟩),
  ("pet_name", Ann.str, ⟨-1, 4, Option.none⟩),
  ("pet_prefix", Ann.str, ⟨-1, 4, Option.none⟩),
  ("pet_suffix", Ann.str, ⟨-1, 4, Option.none⟩),
  ("pet_ability", Ann.str, ⟨-1, 5, Option.none⟩),
  ("seed_base", Ann.int, ⟨1, 1, Option.none⟩),
  ("seed_over", Ann.int, ⟨1, 1, Option.none⟩),
  ("tree_base", Ann.int, ⟨1, 1, Option.none⟩),
  ("tree_over", Ann.int, ⟨1, 1, Option.none⟩),
  ("bg_col", Ann.int, ⟨4, 1, Option.none⟩),
  ("fg_col", Ann.int, ⟨4, 1, Option.none⟩),
  ("seed1", Ann.int, ⟨2, 1, Option.none⟩),
  ("seed2", Ann.int, ⟨2, 1, Option.none⟩),
  ("bloom_time", Ann.int, ⟨4, 1, Option.none⟩),
  ("anim_type", Ann.int, ⟨4, 7, Option.none⟩),
  ("anim_string", Ann.str, ⟨-1, 7, Option.none⟩),
  ("anim_tex", Ann.str, ⟨-1, 8, Option.none⟩),
  ("anim_string2", Ann.str, ⟨-1, 8, Option.none⟩),
  ("dlayer1", Ann.int, ⟨4, 8, Option.none⟩),
  ("dlayer2", Ann.int, ⟨4, 8, Option.none⟩),
  ("properties2", Ann.int, ⟨2, 9, Option.none⟩),
  ("_unknown1", Ann.none, ⟨62, 9, Option.none⟩),
  ("tile_range", Ann.int, ⟨4, 10, Option.none⟩),
  ("pile_range", Ann.int, ⟨4, 10, Option.none⟩),
  ("custom_punch", Ann.str, ⟨-1, 11, Option.none⟩),
  ("_unknown2", Ann.none, ⟨13, 12, Option.none⟩),
  ("clock_div", Ann.int, ⟨4, 13, Option.none⟩),
  ("parent_id", Ann.int, ⟨4, 14, Option.none⟩),
  ("_unknown3", Ann.none, ⟨25, 15, Option.none⟩),
  ("alt_sit_path", Ann.str, ⟨-1, 15, Option.none⟩),
  ("_unknown4", Ann.str, ⟨-1, 16, Option.none⟩)]

/-- The reduced two-field template of the end-to-end example:
`[id: Integer(4), flag: Integer(1)]`, no XOR keys. -/
def reducedTemplate : Template :=
  [("id", Ann.int, ⟨4, 1, Option.none⟩), ("flag", Ann.int, ⟨1, 1, Option.none⟩)]

/-! Helper lemmas. -/

/-- If the XOR loop succeeds on `s` from position `p`, running it again on
the output from the same position undoes it: each element reverses by
`(c ^^^ m) ^^^ m = c`, and the original code points — all at most 0x10FFFF
when `s` is a genuine Python string — pass the `chr` range check. -/
theorem xorAux_involution (key : List Nat) (offset : Nat) :
    ∀ (p : Nat) (s t : List Nat), (∀ c ∈ s, c ≤ 0x10FFFF) →
      xorAux key offset p s = some t → xorAux key offset p t = some s := by
  intro p s
  induction s generalizing p with
  | nil =>
    intro t hs h
    injection h with h2
    subst h2
    rfl
  | cons c cs ih =>
    intro t hs h
    simp [xorAux] at h
    obtain ⟨hxle, ts, hrec, hcons⟩ := h
    subst hcons
    have hc : c ≤ 0x10FFFF := hs c (List.mem_cons_self _ _)
    have hcs : ∀ d ∈ cs, d ≤ 0x10FFFF :=
      fun d hd => hs d (List.mem_cons_of_mem _ hd)
    have hback := ih (p + 1) ts hcs hrec
    simp [xorAux, Nat.xor_assoc, Nat.xor_self, Nat.xor_zero,
      Nat.not_lt.mpr hc, hback]

/-! Theorems for the claims. -/

/-- C5 counterexample: the transform applied twice does not restore every
string with every nonempty key. With the one-character key U+80000 and the
one-character string U+100000 (both valid Python strings, key nonempty) the
very first application raises the `chr` ValueError — `0x100000 ^^^ 0x80000 =
0x180000` is not in `range(0x110000)` — so the double application is an
error, never the original string. -/
theorem xor_str_involution_counterexample :
    _xor_str [1048576] [524288] 0 = .error ParseError.valueError
    ∧ ¬ ∃ t, _xor_str [1048576] [524288] 0 = .ok t ∧
        _xor_str t [524288] 0 = .ok [1048576] := by
  constructor
  · rfl
  · rintro ⟨t, ht, _⟩
    rw [show _xor_str [1048576] [524288] 0 = .error ParseError.valueError
      from rfl] at ht
    exact Except.noConfusion ht

/-- C5 amended: `_xor_str` is an involution whenever it does not raise: for
every genuine string `s` (all code points at most 0x10FFFF), every nonempty
key and every offset, if the first application succeeds with output `t`,
then the second application with the same key and offset succeeds and
restores `s`. -/
theorem xor_str_involution (s key : List Nat) (offset : Nat) (hkey : key ≠ [])
    (hs : ∀ c ∈ s, c ≤ 0x10FFFF) (t : List Nat)
    (ht : _xor_str s key offset = .ok t) :
    _xor_str t key offset = .ok s := by
  have hlen : ¬(key.length = 0 ∧ s.length ≠ 0) :=
    fun h => hkey (List.length_eq_zero.mp h.1)
  have hlen2 : ¬(key.length = 0 ∧ t.length ≠ 0) :=
    fun h => hkey (List.length_eq_zero.mp h.1)
  unfold _xor_str at ht
  rw [if_neg hlen] at ht
  unfold _xor_str
  rw [if_neg hlen2]
  cases hfwd : xorAux key offset 0 s with
  | none => rw [hfwd] at ht; exact absurd ht (by simp)
  | some r =>
    rw [hfwd] at ht
    dsimp only at ht
    injection ht with h2
    subst h2
    rw [xorAux_involution key offset 0 s _ hs hfwd]

/-- C5 witness: undoing a concrete successful transform. -/
theorem xor_str_involution_witness :
    _xor_str [74, 104] [1, 2] 3 = .ok [72, 105] :=
  xor_str_involution [72, 105] [1, 2] 3 (by decide) (by decide) [74, 104] rfl

/-- C1 counterexample: the claim says a truncated buffer always fails with
`UnexpectedEof` and never yields a zero-filled record. Here the header
declares one record but the buffer ends right after the header (0 of the 5
record bytes are present), yet `parse` succeeds and returns the zero-filled
record — the empty reads decode as 0, and the id check passes since 0 = 0. -/
theorem truncated_parse_zero_filled_counterexample :
    parse [1, 0, 1, 0, 0, 0] reducedTemplate =
      .ok (1, 1, [[("id", some (Value.int 0)), ("flag", some (Value.int 0))]]) := rfl

/-- C1 amended: `_parse_int` never fails. When fewer than `size` bytes
remain, it consumes everything that is left and returns the little-endian
value of those bytes (0 when the stream is empty); no end-of-file error
exists anywhere in the decoder. -/
theorem parse_int_short_read (buffer : List Nat) (size : Int)
    (h0 : 0 ≤ size) (hshort : buffer.length < size.toNat) :
    _parse_int buffer size = (fromBytesLE buffer, []) := by
  have hle : buffer.length ≤ size.toNat := Nat.le_of_lt hshort
  simp [_parse_int, readBytes, Int.not_lt.mpr h0,
    List.take_of_length_le hle, List.drop_eq_nil_of_le hle]

/-- C1 amended witness: a 1-byte stream read with width 4. -/
theorem parse_int_short_read_witness :
    _parse_int [9] 4 = (fromBytesLE [9], []) :=
  parse_int_short_read [9] 4 (by decide) (by decide)

/-- C2: version gating. A field whose `_Field.version` exceeds the container
version is recorded as `None` and consumes zero bytes (the stream is returned
unchanged), whatever its annotation; and a non-gated `int`-annotated field
always decodes to an integer value (never `None`), consuming its bytes. -/
theorem version_gating (version i : Nat) (buffer : List Nat) (k : String)
    (t : Ann) (f : _Field) :
    (version < f.version →
      parseField version i buffer (k, t, f) = .ok (Option.none, buffer))
    ∧ (f.version ≤ version →
      parseField version i buffer (k, Ann.int, f) =
        .ok (some (Value.int (_parse_int buffer f.size).1),
          (_parse_int buffer f.size).2)) := by
  constructor
  · intro h
    simp [parseField, h]
  · intro h
    simp [parseField, Nat.not_lt.mpr h]

/-- C2 witness: a version-5 field under a version-1 container is absent with
the buffer untouched; a version-1 `int` field decodes to `some` integer. -/
theorem version_gating_witness :
    parseField 1 0 [7] ("pet_name", Ann.str, ⟨-1, 5, Option.none⟩) =
        .ok (Option.none, [7])
    ∧ parseField 1 0 [7] ("type", Ann.int, ⟨1, 1, Option.none⟩) =
        .ok (some (Value.int (_parse_int [7] 1).1), (_parse_int [7] 1).2) :=
  ⟨(version_gating 1 0 [7] "pet_name" Ann.str ⟨-1, 5, Option.none⟩).1 (by decide),
   (version_gating 1 0 [7] "type" Ann.int ⟨1, 1, Option.none⟩).2 (by decide)⟩

/-- C7: end-to-end example. With the reduced two-field schema and no XOR,
bytes `01 00 | 01 00 00 00 | 00 00 00 00 05` decode to version 1, count 1,
and one record with `id = 0` and `flag = 5`. -/
theorem parse_end_to_end_example :
    parse [0x01, 0x00, 0x01, 0x00, 0x00, 0x00, 0x00, 0x00, 0x00, 0x00, 0x05]
        reducedTemplate =
      .ok (1, 1, [[("id", some (Value.int 0)), ("flag", some (Value.int 5))]]) := rfl

/-- C8: a non-gated field whose annotation is none of `int`, `str`, `None`
makes the decode fail with the unknown-field-type error (carrying the field
name and the annotation's type name), rather than being skipped. -/
theorem unsupported_field_kind (version i : Nat) (buffer : List Nat)
    (k typeName : String) (f : _Field) (h : f.version ≤ version) :
    parseField version i buffer (k, Ann.other typeName, f) =
      .error (ParseError.unknownFieldType k typeName) := by
  simp [parseField, Nat.not_lt.mpr h]

/-- C8 witness: a `float`-annotated field under a matching version errors. -/
theorem unsupported_field_kind_witness :
    parseField 1 0 [1, 2, 3] ("weird", Ann.other "float", ⟨4, 1, Option.none⟩) =
      .error (ParseError.unknownFieldType "weird" "float") :=
  unsupported_field_kind 1 0 [1, 2, 3] "weird" "float" ⟨4, 1, Option.none⟩ (by decide)

/-- C4 counterexample: under version 3 with an XOR-keyed descriptor the
field does not always decode to the XOR-transformed string. The wire string
U+100000 (UTF-8 `F4 80 80 80`) XORed against the one-character key U+80000
overflows `chr` (`0x100000 ^^^ 0x80000 = 0x180000 > 0x10FFFF`), so the
field decode raises the `chr` ValueError instead of producing a string. -/
theorem xor_v3_chr_overflow_counterexample :
    parseField 3 0 [4, 0, 244, 128, 128, 128]
      ("name", Ann.str, ⟨-1, 1, some [524288]⟩) =
      .error ParseError.valueError := rfl

/-- C4 amended: XOR gating for string fields. For a non-gated `str` field
whose raw string decode succeeds: with no XOR key the raw string is kept;
with an XOR key but container version below 3 the raw string is still kept;
with an XOR key and version at least 3 the transform is applied at offset
`i`, the record's sequence index — the stored value is its output when it
succeeds, and its exception (`chr` out of range on overflow, division by
zero on an empty key) aborts the field decode when it raises. -/
theorem xor_applied_iff_key_and_v3 (version i : Nat) (buffer : List Nat)
    (k : String) (f : _Field) (s rest : List Nat)
    (hs : _parse_str buffer = some (s, rest)) (hv : f.version ≤ version) :
    (f.xor_key = Option.none →
      parseField version i buffer (k, Ann.str, f) = .ok (some (Value.str s), rest))
    ∧ (∀ key, f.xor_key = some key → version < 3 →
      parseField version i buffer (k, Ann.str, f) = .ok (some (Value.str s), rest))
    ∧ (∀ key s2, f.xor_key = some key → 3 ≤ version →
      _xor_str s key i = .ok s2 →
      parseField version i buffer (k, Ann.str, f) =
        .ok (some (Value.str s2), rest))
    ∧ (∀ key e, f.xor_key = some key → 3 ≤ version →
      _xor_str s key i = .error e →
      parseField version i buffer (k, Ann.str, f) = .error e) := by
  refine ⟨?_, ?_, ?_, ?_⟩
  · intro hk
    simp [parseField, Nat.not_lt.mpr hv, hs, hk]
  · intro key hk hlt
    simp [parseField, Nat.not_lt.mpr hv, hs, hk, Nat.not_le.mpr hlt]
  · intro key s2 hk hge hxor
    simp [parseField, Nat.not_lt.mpr hv, hs, hk, hge, hxor]
  · intro key e hk hge hxor
    simp [parseField, Nat.not_lt.mpr hv, hs, hk, hge, hxor]

/-- C4 witness: raw bytes decoded with an XOR-keyed descriptor under
version 3 yield the XOR transform at the record index 0. -/
theorem xor_applied_iff_key_and_v3_witness :
    parseField 3 0 [2, 0, 65, 66] ("name", Ann.str, ⟨-1, 1, some [1]⟩) =
      .ok (some (Value.str [64, 67]), []) :=
  (xor_applied_iff_key_and_v3 3 0 [2, 0, 65, 66] "name" ⟨-1, 1, some [1]⟩
    [65, 66] [] rfl (by decide)).2.2.1 [1] [64, 67] rfl (by decide) rfl

/-- C9: a non-gated field annotated `None` with `size <= 0` is consumed via
the length-prefixed string reader, UTF-8 decoding included: when the framed
bytes are invalid UTF-8 the field decode (and with it the whole record
decode) aborts with the Unicode decode error, even though on success the
decoded string is discarded and the field is bound to `None`. -/
theorem opaque_dynamic_uses_string_reader (version i : Nat) (k : String)
    (f : _Field) (buffer : List Nat) (hv : f.version ≤ version)
    (hsz : f.size ≤ 0) :
    (_parse_str buffer = Option.none →
      parseField version i buffer (k, Ann.none, f) =
        .error ParseError.unicodeDecodeError)
    ∧ (∀ s rest, _parse_str buffer = some (s, rest) →
      parseField version i buffer (k, Ann.none, f) = .ok (Option.none, rest))
    ∧ (∀ tail, _parse_str buffer = Option.none →
      parseItem ((k, Ann.none, f) :: tail) version i buffer =
        .error ParseError.unicodeDecodeError) := by
  have hnp : ¬(0 : Int) < f.size := Int.not_lt.mpr hsz
  refine ⟨?_, ?_, ?_⟩
  · intro hps
    simp [parseField, Nat.not_lt.mpr hv, hnp, hps]
  · intro s rest hps
    simp [parseField, Nat.not_lt.mpr hv, hnp, hps]
  · intro tail hps
    have h1 : parseField version i buffer (k, Ann.none, f) =
        .error ParseError.unicodeDecodeError := by
      simp [parseField, Nat.not_lt.mpr hv, hnp, hps]
    simp [parseItem, parseFields, h1]

/-- C9 witness: a dynamic opaque field framed over the single byte `0x80`
(a stray continuation byte, invalid UTF-8) aborts the record decode. -/
theorem opaque_dynamic_uses_string_reader_witness :
    parseItem [("_unknown1", Ann.none, ⟨-1, 1, Option.none⟩)] 1 0 [1, 0, 128] =
      .error ParseError.unicodeDecodeError :=
  (opaque_dynamic_uses_string_reader 1 0 "_unknown1" ⟨-1, 1, Option.none⟩
    [1, 0, 128] (by decide) (by decide)).2.2 [] rfl

/-- A successfully decoded item carries `id = i`: the only `ok` path of
`parseItem` is guarded by the `i != item.id` check. -/
theorem parseItem_ok_id (tpl : Template) (version i : Nat) (buffer : List Nat)
    (item : Record) (rest : List Nat)
    (h : parseItem tpl version i buffer = .ok (item, rest)) :
    getAttr item "id" = some (some (Value.int i)) := by
  unfold parseItem at h
  split at h
  · exact absurd h (by simp)
  · split at h
    · exact absurd h (by simp)
    · rename_i record buf2 heq v hga
      by_cases hv : v = some (Value.int i)
      · rw [if_pos hv] at h
        injection h with h2
        injection h2 with h3 h4
        subst h3
        rw [hga, hv]
      · rw [if_neg hv] at h
        exact absurd h (by simp)

/-- A successful run of the outer loop returns exactly as many items as the
remaining iteration count. -/
theorem parseItems_ok_length (tpl : Template) (version : Nat) :
    ∀ (n i : Nat) (buffer : List Nat) (items : List Record) (rest : List Nat),
      parseItems tpl version n i buffer = .ok (items, rest) →
      items.length = n := by
  intro n
  induction n with
  | zero =>
    intro i buffer items rest h
    unfold parseItems at h
    injection h with h2
    injection h2 with h3 h4
    subst h3
    rfl
  | succ n ih =>
    intro i buffer items rest h
    unfold parseItems at h
    split at h
    · exact absurd h (by simp)
    · split at h
      · exact absurd h (by simp)
      · rename_i item buf2 heq1 items0 buf3 heq2
        injection h with h2
        injection h2 with h3 h4
        subst h3
        simp [ih _ _ _ _ heq2]

/-- Every item produced by a successful run of the outer loop, at position
`j` of the returned list, has `id = i + j` where `i` is the loop's starting
index. -/
theorem parseItems_ok_id (tpl : Template) (version : Nat) :
    ∀ (n i : Nat) (buffer : List Nat) (items : List Record) (rest : List Nat),
      parseItems tpl version n i buffer = .ok (items, rest) →
      ∀ (j : Nat) (hj : j < items.length),
        getAttr (items.get ⟨j, hj⟩) "id" = some (some (Value.int (i + j))) := by
  intro n
  induction n with
  | zero =>
    intro i buffer items rest h j hj
    unfold parseItems at h
    injection h with h2
    injection h2 with h3 h4
    subst h3
    exact absurd hj (by simp)
  | succ n ih =>
    intro i buffer items rest h j hj
    unfold parseItems at h
    cases heq1 : parseItem tpl version i buffer with
    | error e => rw [heq1] at h; simp at h
    | ok p =>
      obtain ⟨item, buf2⟩ := p
      rw [heq1] at h
      dsimp only at h
      cases heq2 : parseItems tpl version n (i + 1) buf2 with
      | error e => rw [heq2] at h; simp at h
      | ok q =>
        obtain ⟨items0, buf3⟩ := q
        rw [heq2] at h
        dsimp only at h
        injection h with h2
        injection h2 with h3 h4
        subst h3
        cases j with
        | zero =>
          simpa using parseItem_ok_id tpl version i buffer item buf2 heq1
        | succ j =>
          have hj0 : j < items0.length := by
            simpa using Nat.lt_of_succ_lt_succ hj
          have hrec := ih (i + 1) buf2 items0 buf3 heq2 j hj0
          have harith : i + 1 + j = i + (j + 1) := by omega
          rw [harith] at hrec
          simpa using hrec

/-- C3: positional identity check. Every record at position `j` of a
successfully decoded container has `id = j`; and whenever the fields of the
record at index `i` decode with an `id` attribute different from `i`, that
record's decode fails with the offset-mismatch error carrying the expected
index, the actual decoded id value, and the container's format version (so
no container is returned). -/
theorem parse_identity_check :
    (∀ (tpl : Template) (buffer : List Nat) (v c : Nat) (items : List Record),
      parse buffer tpl = .ok (v, c, items) →
      ∀ (j : Nat) (hj : j < items.length),
        getAttr (items.get ⟨j, hj⟩) "id" = some (some (Value.int j)))
    ∧ (∀ (tpl : Template) (version i : Nat) (buffer : List Nat)
        (record : Record) (buf2 : List Nat) (w : Option Value),
      parseFields tpl version i buffer = .ok (record, buf2) →
      getAttr record "id" = some w → w ≠ some (Value.int i) →
      parseItem tpl version i buffer =
        .error (ParseError.offsetMismatch i w version)) := by
  constructor
  · intro tpl buffer v c items h j hj
    dsimp only [parse] at h
    split at h
    · exact absurd h (by simp)
    · rename_i items0 buf3 heq
      injection h with h2
      injection h2 with h3 h4
      injection h4 with h5 h6
      subst h6
      simpa using parseItems_ok_id tpl _ _ 0 _ items0 buf3 heq j hj
  · intro tpl version i buffer record buf2 w hpf hga hw
    simp [parseItem, hpf, hga, hw]

/-- C3 witness: a record at index 1 whose id field decodes to 2 fails with
the offset-mismatch error carrying expected 1, actual 2, version 1. -/
theorem parse_identity_check_witness :
    parseItem reducedTemplate 1 1 [2, 0, 0, 0, 5] =
      .error (ParseError.offsetMismatch 1 (some (Value.int 2)) 1) :=
  parse_identity_check.2 reducedTemplate 1 1 [2, 0, 0, 0, 5]
    [("id", some (Value.int 2)), ("flag", some (Value.int 5))] []
    (some (Value.int 2)) rfl rfl (by decide)

/-- C6: container decoding. On success, `parse` returns the 2-byte
little-endian version read first, then the 4-byte little-endian record count
read next, and the record list — obtained by running the record loop exactly
`count` times from index 0 on the stream left after the header — whose
length is exactly the count, in decode order. -/
theorem parse_header_and_count :
    ∀ (tpl : Template) (buffer : List Nat) (v c : Nat) (items : List Record),
      parse buffer tpl = .ok (v, c, items) →
      v = (_parse_int buffer 2).1
      ∧ c = (_parse_int (_parse_int buffer 2).2 4).1
      ∧ items.length = c
      ∧ ∃ rest, parseItems tpl v c 0 (_parse_int (_parse_int buffer 2).2 4).2 =
          .ok (items, rest) := by
  intro tpl buffer v c items h
  dsimp only [parse] at h
  cases heq : parseItems tpl (_parse_int buffer 2).1
      (_parse_int (_parse_int buffer 2).2 4).1 0
      (_parse_int (_parse_int buffer 2).2 4).2 with
  | error e => rw [heq] at h; simp at h
  | ok q =>
    obtain ⟨items0, buf3⟩ := q
    rw [heq] at h
    dsimp only at h
    injection h with h2
    injection h2 with h3 h4
    injection h4 with h5 h6
    subst h3
    subst h5
    subst h6
    exact ⟨rfl, rfl, parseItems_ok_length tpl _ _ 0 _ items0 buf3 heq,
      ⟨buf3, heq⟩⟩

/-- C6 witness: the header fields and count of the end-to-end example. -/
theorem parse_header_and_count_witness :
    (1 : Nat) = (_parse_int [1, 0, 1, 0, 0, 0, 0, 0, 0, 0, 5] 2).1
    ∧ (1 : Nat) =
        (_parse_int (_parse_int [1, 0, 1, 0, 0, 0, 0, 0, 0, 0, 5] 2).2 4).1
    ∧ ([[("id", some (Value.int 0)), ("flag", some (Value.int 5))]] :
        List Record).length = 1
    ∧ ∃ rest, parseItems reducedTemplate 1 1 0
        (_parse_int (_parse_int [1, 0, 1, 0, 0, 0, 0, 0, 0, 0, 5] 2).2 4).2 =
        .ok ([[("id", some (Value.int 0)), ("flag", some (Value.int 5))]], rest) :=
  parse_header_and_count reducedTemplate [1, 0, 1, 0, 0, 0, 0, 0, 0, 0, 5] 1 1
    [[("id", some (Value.int 0)), ("flag", some (Value.int 5))]] rfl

/-- When every field of the template is version-gated out, the field loop
binds every field name to `None` and consumes no bytes at all. -/
theorem parseFields_all_gated (version i : Nat) :
    ∀ (tpl : Template) (buffer : List Nat),
      (∀ e ∈ tpl, version < e.2.2.version) →
      parseFields tpl version i buffer =
        .ok (tpl.map (fun e => (e.1, (Option.none : Option Value))), buffer) := by
  intro tpl
  induction tpl with
  | nil => intro buffer h; rfl
  | cons fld rest ih =>
    intro buffer h
    obtain ⟨k, t, f⟩ := fld
    have h1 : version < f.version := h (k, t, f) (List.mem_cons_self _ _)
    have h2 := ih buffer (fun e he => h e (List.mem_cons_of_mem _ he))
    simp [parseFields, parseField, h1, h2]

/-- C10: with the default `Item` template (every field has minimum version
at least 1), a container whose header declares version 0 and a count of at
least 1 gates out every field of record 0 — `id` included, so it decodes to
`None` — and the identity check at index 0 therefore fails with the
offset-mismatch error (actual value `None`, version 0): no container is
ever returned. -/
theorem version_zero_gates_id (buffer : List Nat)
    (hv : (_parse_int buffer 2).1 = 0)
    (hc : 1 ≤ (_parse_int (_parse_int buffer 2).2 4).1) :
    parse buffer Item = .error (ParseError.offsetMismatch 0 Option.none 0) := by
  have hall : ∀ e ∈ Item, (0 : Nat) < e.2.2.version := by decide
  have hitem : ∀ buf : List Nat, parseItem Item 0 0 buf =
      .error (ParseError.offsetMismatch 0 Option.none 0) := by
    intro buf
    have hpf := parseFields_all_gated 0 0 Item buf hall
    have hga : getAttr
        (Item.map (fun e => (e.1, (Option.none : Option Value)))) "id" =
        some Option.none := rfl
    simp [parseItem, hpf, hga]
  obtain ⟨n, hn⟩ : ∃ n, (_parse_int (_parse_int buffer 2).2 4).1 = n + 1 :=
    ⟨(_parse_int (_parse_int buffer 2).2 4).1 - 1, by omega⟩
  dsimp only [parse]
  rw [hv, hn]
  simp [parseItems, hitem]

/-- C10 witness: header bytes `00 00 | 01 00 00 00` (version 0, count 1)
against the default template fail at index 0 with actual id `None`. -/
theorem version_zero_gates_id_witness :
    parse [0, 0, 1, 0, 0, 0] Item =
      .error (ParseError.offsetMismatch 0 Option.none 0) :=
  version_zero_gates_id [0, 0, 1, 0, 0, 0] rfl (by decide)
